import Mathlib

/-!
Shallow embedding of `src/apis/gpt.py` (GPTSession / _GPTConversation).

Modelling conventions:
- Python strings are Lean `String`; `len` is `String.length`.
- The chat completion backend is an oracle `List Message → Except String String`
  mapping the request message list to either a reply or a transport error.
- The availability probe's backend is an oracle `Nat → ProbeOutcome` giving the
  outcome of the i-th `openai.ChatCompletion.create` call (success, a
  `RateLimitError`, or an `InvalidRequestError`; other exceptions would
  propagate out of `is_gpt4_available` and are outside the claims considered).
- Python floats are modelled as exact rationals `ℚ`; `round(x, 3)` is
  modelled as rounding `x * 1000` to the nearest integer (ties to even, as in
  Python) and dividing by 1000.
- Console printing is modelled by returning the printed value / recording
  whether a warning was printed; `time.sleep(1)` is modelled by counting the
  seconds slept.
- Environment access `os.environ` is a function `String → Option String`.
-/

namespace GPTDeploy

/-- Message roles used by the conversation layer (system / user / assistant). -/
inductive Role where
  | system
  | user
  | assistant
deriving DecidableEq, Repr

/-- A chat message: a role together with its text content.  This models
langchain's `SystemMessage` / `HumanMessage` / `AIMessage`. -/
structure Message where
  role : Role
  content : String
deriving DecidableEq, Repr

/-- Modelled from the spec: the prompt-template text assets
(`template_system_message_base`, `executor_example`, `docarray_example`,
`client_example` from `src.options.generate.templates_system`) are not under
`src/`.  The spec describes the base template as a fixed template into which
the task and test descriptions are substituted, so the rendered base is
modelled as `base_pre ++ task ++ base_mid ++ test ++ base_post` for opaque
fixed strings, and the three example fragments as opaque fixed strings. -/
structure Templates where
  base_pre : String
  base_mid : String
  base_post : String
  executor_example : String
  docarray_example : String
  client_example : String
deriving DecidableEq, Repr

/-- Rendering of `PromptTemplate.from_template(template_system_message_base)
.format(task_description=…, test_description=…)`: the task and test
descriptions are substituted verbatim into the fixed template. -/
def render_base (T : Templates) (task_description test_description : String) : String :=
  T.base_pre ++ task_description ++ T.base_mid ++ test_description ++ T.base_post

/-- Embedding of `_GPTConversation._create_system_message`: renders the base
template, then appends each named example fragment (preceded by a newline)
when its name is a member of `system_definition_examples`, testing the three
names in the fixed source order executor, docarray, client. -/
def create_system_message (T : Templates) (task_description test_description : String)
    (system_definition_examples : List String) : Message :=
  let m0 := render_base T task_description test_description
  let m1 := if "executor" ∈ system_definition_examples then m0 ++ "\n" ++ T.executor_example else m0
  let m2 := if "docarray" ∈ system_definition_examples then m1 ++ "\n" ++ T.docarray_example else m1
  let m3 := if "client" ∈ system_definition_examples then m2 ++ "\n" ++ T.client_example else m2
  Message.mk Role.system m3

/-- Outcome of one `openai.ChatCompletion.create` call inside the probe. -/
inductive ProbeOutcome where
  | success
  | rateLimited
  | invalidRequest
deriving DecidableEq, Repr

/-- Observable result of the availability probe: the returned boolean,
the number of `create` calls issued, and the total seconds slept. -/
structure ProbeResult where
  available : Bool
  calls : Nat
  sleeps : Nat
deriving DecidableEq, Repr

/-- Embedding of the `for i in range(5)` loop in `is_gpt4_available`:
`fuel` is the number of loop iterations remaining and `i` the next attempt
index.  A successful `create` breaks out of the loop and `True` is returned;
a `RateLimitError` is caught by the inner handler, `sleep(1)` runs and the
loop continues; an `InvalidRequestError` escapes to the outer handler which
returns `False`.  If the loop runs out of iterations, control falls through
to `return True`. -/
def probe_loop (attempts : Nat → ProbeOutcome) : Nat → Nat → Nat → Nat → ProbeResult
  | 0, _, calls, sleeps => ProbeResult.mk true calls sleeps
  | fuel + 1, i, calls, sleeps =>
    match attempts i with
    | ProbeOutcome.success => ProbeResult.mk true (calls + 1) sleeps
    | ProbeOutcome.invalidRequest => ProbeResult.mk false (calls + 1) sleeps
    | ProbeOutcome.rateLimited => probe_loop attempts fuel (i + 1) (calls + 1) (sleeps + 1)

/-- Embedding of `GPTSession.is_gpt4_available`. -/
def is_gpt4_available (attempts : Nat → ProbeOutcome) : ProbeResult :=
  probe_loop attempts 5 0 0 0

/-- Modelled from the spec: the numeric rate constants
(`PRICING_GPT4_PROMPT`, `PRICING_GPT4_GENERATION`,
`PRICING_GPT3_5_TURBO_PROMPT`, `PRICING_GPT3_5_TURBO_GENERATION` from
`src.constants`) are not under `src/`; the spec gives no values, so they are
opaque rational parameters. -/
structure Pricing where
  gpt4_prompt : ℚ
  gpt4_generation : ℚ
  gpt35_prompt : ℚ
  gpt35_generation : ℚ
deriving DecidableEq, Repr

/-- State of a `GPTSession` after construction: descriptions, selected model
name, selected pricing constants, and the cumulative character counters. -/
structure GPTSession where
  task_description : String
  test_description : String
  model_name : String
  pricing_prompt : ℚ
  pricing_generation : ℚ
  chars_prompt_so_far : Nat
  chars_generation_so_far : Nat
deriving DecidableEq, Repr

/-- Observable side effects of `GPTSession.__init__`: whether the yellow
downgrade warning was printed, and the probe result when a probe was issued
(`none` when no probe request was made at all). -/
structure InitLog where
  warning_printed : Bool
  probe : Option ProbeResult
deriving DecidableEq, Repr

/-- Embedding of the tier-selection part of `GPTSession.__init__` (after the
API-key check).  `model == 'gpt-4' and self.is_gpt4_available()` short-circuits,
so the probe is only issued when `model = "gpt-4"`. -/
def session_init (P : Pricing) (attempts : Nat → ProbeOutcome)
    (task_description test_description model : String) : GPTSession × InitLog :=
  if model = "gpt-4" then
    let r := is_gpt4_available attempts
    if r.available then
      (GPTSession.mk task_description test_description "gpt-4"
        P.gpt4_prompt P.gpt4_generation 0 0, InitLog.mk false (some r))
    else
      (GPTSession.mk task_description test_description "gpt-3.5-turbo"
        P.gpt35_prompt P.gpt35_generation 0 0, InitLog.mk true (some r))
  else
    (GPTSession.mk task_description test_description model
      P.gpt35_prompt P.gpt35_generation 0 0, InitLog.mk false none)

/-- The literal message of the exception raised by
`GPTSession.configure_openai_api_key` when the key is absent. -/
def openai_key_error_message : String :=
  "\nYou need to set OPENAI_API_KEY in your environment.\nIf you have updated it already, please restart your terminal.\n"

/-- Embedding of `GPTSession.configure_openai_api_key`: raises when
`OPENAI_API_KEY` is not in the environment. -/
def configure_openai_api_key (env : String → Option String) : Except String Unit :=
  if (env "OPENAI_API_KEY").isSome then Except.ok () else Except.error openai_key_error_message

/-- Embedding of `GPTSession.__init__` end to end: the API-key check runs
first, and only if it passes does tier selection (and hence the probe) run. -/
def gpt_session_construct (env : String → Option String) (P : Pricing)
    (attempts : Nat → ProbeOutcome)
    (task_description test_description model : String) :
    Except String (GPTSession × InitLog) :=
  match configure_openai_api_key env with
  | Except.error e => Except.error e
  | Except.ok _ => Except.ok (session_init P attempts task_description test_description model)

/-- Rounding to the nearest integer with ties to even, as Python's `round`. -/
def round_half_even (q : ℚ) : ℤ :=
  let f := ⌊q⌋
  if q - (f : ℚ) < 1 / 2 then f
  else if (1 : ℚ) / 2 < q - (f : ℚ) then f + 1
  else if f % 2 = 0 then f else f + 1

/-- Python's `round(x, 3)` on the exact-rational model. -/
def round3 (q : ℚ) : ℚ := (round_half_even (q * 1000) : ℚ) / 1000

/-- Embedding of `GPTSession.calculate_money_spent`.  `CPT` is the
`CHARS_PER_TOKEN` constant from `src.constants` (not under `src/`; modelled
from the spec as an opaque rational parameter). -/
def calculate_money_spent (CPT : ℚ) (num_chars : Nat) (price : ℚ) : ℚ :=
  round3 ((num_chars : ℚ) / CPT * price / 1000)

/-- Embedding of `GPTSession.cost_callback`: bumps both cumulative counters,
then computes and prints the running total.  The second component is the
numeric value printed by `print(f'… ＄\x7bmoney_prompt + money_generation:.3f\x7d')`. -/
def cost_callback (CPT : ℚ) (s : GPTSession) (chars_prompt chars_generation : Nat) :
    GPTSession × ℚ :=
  let s' := { s with
    chars_prompt_so_far := s.chars_prompt_so_far + chars_prompt,
    chars_generation_so_far := s.chars_generation_so_far + chars_generation }
  let money_prompt := calculate_money_spent CPT s'.chars_prompt_so_far s'.pricing_prompt
  let money_generation := calculate_money_spent CPT s'.chars_generation_so_far s'.pricing_generation
  (s', money_prompt + money_generation)

/-- State of a `_GPTConversation`: the immutable system message and the
transcript `self.messages` (user/assistant turns only). -/
structure Conversation where
  system_message : Message
  messages : List Message
deriving DecidableEq, Repr

/-- Embedding of `GPTSession.get_conversation` composed with
`_GPTConversation.__init__`: a fresh conversation has an empty transcript and
the system message rendered from the session's descriptions. -/
def get_conversation (T : Templates) (s : GPTSession)
    (system_definition_examples : List String) : Conversation :=
  Conversation.mk
    (create_system_message T s.task_description s.test_description system_definition_examples)
    []

/-- The request list formed inside `chat`: `[self.system_message] + self.messages`
evaluated after the user message for `prompt` has been appended. -/
def chat_request (c : Conversation) (prompt : String) : List Message :=
  c.system_message :: (c.messages ++ [Message.mk Role.user prompt])

/-- Total character count of a message list:
`sum([len(m.content) for m in messages])`. -/
def msgs_chars (l : List Message) : Nat :=
  (l.map (fun m => m.content.length)).sum

/-- Embedding of `_GPTConversation.chat`.  The user message is appended to the
transcript first; then the full request (system message plus transcript) is
sent to the backend oracle.  On success the cost callback fires with the
request's total characters and the reply's length, the assistant reply is
appended, and the reply is returned.  On a transport error the exception
propagates: the session is untouched (no cost callback) and the transcript
keeps the dangling user message. -/
def chat (oracle : List Message → Except String String) (CPT : ℚ)
    (s : GPTSession) (c : Conversation) (prompt : String) :
    GPTSession × Conversation × Except String String :=
  let messages1 := c.messages ++ [Message.mk Role.user prompt]
  let request := chat_request c prompt
  match oracle request with
  | Except.error e => (s, Conversation.mk c.system_message messages1, Except.error e)
  | Except.ok response =>
    let s' := (cost_callback CPT s (msgs_chars request) response.length).1
    (s', Conversation.mk c.system_message (messages1 ++ [Message.mk Role.assistant response]),
      Except.ok response)

/-- Iterating `chat` over a list of prompts, threading session and
conversation state. -/
def runChats (oracle : List Message → Except String String) (CPT : ℚ)
    (s : GPTSession) (c : Conversation) : List String → GPTSession × Conversation
  | [] => (s, c)
  | p :: ps =>
    let r := chat oracle CPT s c p
    runChats oracle CPT r.1 r.2.1 ps

/-- Ghost log of a `runChats` run: for each turn, the request message list
that was sent and the backend's answer for it. -/
def runLog (oracle : List Message → Except String String) (CPT : ℚ)
    (s : GPTSession) (c : Conversation) : List String → List (List Message × Except String String)
  | [] => []
  | p :: ps =>
    let r := chat oracle CPT s c p
    (chat_request c p, r.2.2) :: runLog oracle CPT r.1 r.2.1 ps

/-- Character count of a backend answer: the reply's length on success,
zero on a transport error (no reply was received). -/
def reply_chars : Except String String → Nat
  | Except.ok r => r.length
  | Except.error _ => 0

/-! Derived vocabulary used to state the claims about `_create_system_message`. -/

/-- The three example fragments paired with their names, in the fixed order in
which `_create_system_message` tests them: executor, docarray, client. -/
def example_table (T : Templates) : List (String × String) :=
  [("executor", T.executor_example), ("docarray", T.docarray_example), ("client", T.client_example)]

/-- The text appended after the rendered base template: the fragments whose
names are members of `l`, each preceded by a newline, in the fixed order. -/
def rendered_examples (T : Templates) (l : List String) : String :=
  String.join (((example_table T).filter (fun p => p.1 ∈ l)).map (fun p => "\n" ++ p.2))

/-- The example fragments selected by `l`, in the fixed order. -/
def selected_examples (T : Templates) (l : List String) : List String :=
  ((example_table T).filter (fun p => p.1 ∈ l)).map Prod.snd

/-- Concrete template instance used by witnesses. -/
def sample_templates : Templates :=
  Templates.mk "BASE(" ")(" ")" "EXE" "DOC" "CLI"

/-- Concrete pricing instance used by witnesses; the four constants are
pairwise distinct so that the selected tier is visible in the result. -/
def sample_pricing : Pricing :=
  Pricing.mk 3 6 1 2

/-- Key lemma for the system-message claims: the content of the system message
is the rendered base template followed by exactly the selected example
fragments, each on a new line, in the fixed source order. -/
theorem create_system_message_content (T : Templates) (task test : String) (l : List String) :
    (create_system_message T task test l).content =
      render_base T task test ++ rendered_examples T l := by
  by_cases h1 : "executor" ∈ l <;> by_cases h2 : "docarray" ∈ l <;> by_cases h3 : "client" ∈ l <;>
    simp [create_system_message, rendered_examples, example_table, h1, h2, h3, String.join,
      String.append_assoc]

/-- The system message depends on the example names only through membership of
the three recognized names. -/
theorem create_system_message_membership (T : Templates) (task test : String)
    (l1 l2 : List String)
    (he : "executor" ∈ l1 ↔ "executor" ∈ l2) (hd : "docarray" ∈ l1 ↔ "docarray" ∈ l2)
    (hc : "client" ∈ l1 ↔ "client" ∈ l2) :
    create_system_message T task test l1 = create_system_message T task test l2 := by
  simp only [create_system_message, he, hd, hc]

/-- Modelled from the spec: the running-cost formula as the claim states it —
`(promptCharsSoFar / CHARS_PER_TOKEN) * pricePerKCharsPrompt / 1000
+ (genCharsSoFar / CHARS_PER_TOKEN) * pricePerKCharsGeneration / 1000,
rounded to 3 decimal places`, with the rounding applied to the summed total. -/
def spec_running_cost (CPT price_prompt price_generation : ℚ)
    (prompt_chars generation_chars : Nat) : ℚ :=
  round3 ((prompt_chars : ℚ) / CPT * price_prompt / 1000
    + (generation_chars : ℚ) / CPT * price_generation / 1000)

/-- Concrete session used by witnesses. -/
def sample_session : GPTSession :=
  GPTSession.mk "T" "D" "gpt-4" 3 6 0 0

/-- Concrete fresh conversation used by witnesses. -/
def sample_conversation : Conversation :=
  Conversation.mk (Message.mk Role.system "SYS") []

/-- A transport error makes `chat` return the session unchanged, the
transcript extended by the dangling user message only, and the propagated
error. -/
theorem chat_err_eq (oracle : List Message → Except String String) (CPT : ℚ)
    (s : GPTSession) (c : Conversation) (p e : String)
    (h : oracle (chat_request c p) = Except.error e) :
    chat oracle CPT s c p
      = (s, Conversation.mk c.system_message (c.messages ++ [Message.mk Role.user p]),
         Except.error e) := by
  simp [chat, h]

/-- A successful backend reply makes `chat` fire the cost callback with the
request's character total and the reply length, append user then assistant
messages, and return the reply. -/
theorem chat_ok_eq (oracle : List Message → Except String String) (CPT : ℚ)
    (s : GPTSession) (c : Conversation) (p r : String)
    (h : oracle (chat_request c p) = Except.ok r) :
    chat oracle CPT s c p
      = ((cost_callback CPT s (msgs_chars (chat_request c p)) r.length).1,
         Conversation.mk c.system_message
           (c.messages ++ [Message.mk Role.user p, Message.mk Role.assistant r]),
         Except.ok r) := by
  simp [chat, h]

/-- The cost callback bumps each cumulative counter by its argument. -/
theorem cost_callback_counters (CPT : ℚ) (s : GPTSession) (cp cg : Nat) :
    (cost_callback CPT s cp cg).1
      = { s with chars_prompt_so_far := s.chars_prompt_so_far + cp,
                 chars_generation_so_far := s.chars_generation_so_far + cg } := rfl

/-- One `chat` call never decreases either cumulative counter, whatever the
backend answers. -/
theorem chat_counters_mono (oracle : List Message → Except String String) (CPT : ℚ)
    (s : GPTSession) (c : Conversation) (p : String) :
    s.chars_prompt_so_far ≤ (chat oracle CPT s c p).1.chars_prompt_so_far
    ∧ s.chars_generation_so_far ≤ (chat oracle CPT s c p).1.chars_generation_so_far := by
  cases h : oracle (chat_request c p) with
  | error e => rw [chat_err_eq oracle CPT s c p e h]; exact ⟨le_refl _, le_refl _⟩
  | ok r =>
    rw [chat_ok_eq oracle CPT s c p r h, cost_callback_counters]
    exact ⟨Nat.le_add_right _ _, Nat.le_add_right _ _⟩

/-- Over a run of successful turns, each counter ends at its initial value
plus the exact sum of the per-turn request/reply character counts. -/
theorem runChats_counters (oracle : List Message → Except String String) (CPT : ℚ)
    (ps : List String) : ∀ (s : GPTSession) (c : Conversation),
    (∀ e ∈ runLog oracle CPT s c ps, (e.2).isOk = true) →
    (runChats oracle CPT s c ps).1.chars_prompt_so_far
      = s.chars_prompt_so_far + ((runLog oracle CPT s c ps).map (fun e => msgs_chars e.1)).sum
    ∧ (runChats oracle CPT s c ps).1.chars_generation_so_far
      = s.chars_generation_so_far
        + ((runLog oracle CPT s c ps).map (fun e => reply_chars e.2)).sum := by
  induction ps with
  | nil => intro s c _; simp [runChats, runLog]
  | cons p ps ih =>
    intro s c hok
    cases h : oracle (chat_request c p) with
    | error e =>
      exfalso
      have hmem : (chat_request c p, (chat oracle CPT s c p).2.2)
          ∈ runLog oracle CPT s c (p :: ps) := by
        simp [runLog]
      have := hok _ hmem
      rw [chat_err_eq oracle CPT s c p e h] at this
      simp [Except.isOk, Except.toBool] at this
    | ok r =>
      have hstep := chat_ok_eq oracle CPT s c p r h
      have hok' : ∀ e ∈ runLog oracle CPT (chat oracle CPT s c p).1 (chat oracle CPT s c p).2.1 ps,
          (e.2).isOk = true := by
        intro e he
        exact hok e (by simp [runLog]; exact Or.inr he)
      have ihh := ih (chat oracle CPT s c p).1 (chat oracle CPT s c p).2.1 hok'
      constructor
      · have hrun : runChats oracle CPT s c (p :: ps)
            = runChats oracle CPT (chat oracle CPT s c p).1 (chat oracle CPT s c p).2.1 ps := rfl
        rw [hrun, ihh.1]
        have hcnt : (chat oracle CPT s c p).1.chars_prompt_so_far
            = s.chars_prompt_so_far + msgs_chars (chat_request c p) := by
          rw [hstep, cost_callback_counters]
        rw [hcnt]
        have hlog : runLog oracle CPT s c (p :: ps)
            = (chat_request c p, (chat oracle CPT s c p).2.2)
              :: runLog oracle CPT (chat oracle CPT s c p).1 (chat oracle CPT s c p).2.1 ps := rfl
        rw [hlog]
        simp [Nat.add_assoc]
      · have hrun : runChats oracle CPT s c (p :: ps)
            = runChats oracle CPT (chat oracle CPT s c p).1 (chat oracle CPT s c p).2.1 ps := rfl
        rw [hrun, ihh.2]
        have hcnt : (chat oracle CPT s c p).1.chars_generation_so_far
            = s.chars_generation_so_far + r.length := by
          rw [hstep, cost_callback_counters]
        rw [hcnt]
        have hlog : runLog oracle CPT s c (p :: ps)
            = (chat_request c p, (chat oracle CPT s c p).2.2)
              :: runLog oracle CPT (chat oracle CPT s c p).1 (chat oracle CPT s c p).2.1 ps := rfl
        rw [hlog]
        have hrep : reply_chars (chat oracle CPT s c p).2.2 = r.length := by
          rw [hstep]; rfl
        simp [hrep, Nat.add_assoc]

/-! Claim theorems. -/

/-- Claim C1, counterexample: with every probe attempt rate-limited, the five
retries are exhausted, yet `is_gpt4_available` falls through the loop to
`return True` (the `RateLimitError` is consumed by the inner handler and the
outer exception path is never reached), so the session keeps `"gpt-4"` with
the premium pricing constants and prints no downgrade warning — the tier is
not treated as unavailable, contrary to the claim. -/
theorem rate_limit_exhaustion_keeps_premium_counterexample :
    is_gpt4_available (fun _ => ProbeOutcome.rateLimited) = ProbeResult.mk true 5 5
    ∧ (session_init sample_pricing (fun _ => ProbeOutcome.rateLimited) "T" "D" "gpt-4").1.model_name
        = "gpt-4"
    ∧ (session_init sample_pricing (fun _ => ProbeOutcome.rateLimited) "T" "D" "gpt-4").1.pricing_prompt
        = sample_pricing.gpt4_prompt
    ∧ (session_init sample_pricing (fun _ => ProbeOutcome.rateLimited) "T" "D" "gpt-4").2.warning_printed
        = false :=
  ⟨rfl, rfl, rfl, rfl⟩

/-- Claim C1, amended: a rate-limit signal during the probe is retried with a
fixed 1-second pause after each rate-limited attempt, for at most 5 attempts
in total; if all 5 attempts are rate-limited the loop exits normally (5 calls
issued, 5 seconds slept) and the probe reports the tier as available, so the
session keeps the premium tier with no downgrade warning — exhaustion does
not reach the outer exception path and does not trigger fallback.  A success
after k < 5 rate-limited attempts stops the probe at attempt k + 1, and only
a non-retryable `InvalidRequestError` (after k < 5 rate-limited attempts)
reaches the outer exception path: the probe then reports unavailable and the
session falls back to `"gpt-3.5-turbo"` with the GPT-3.5 pricing constants
and the downgrade warning. -/
theorem rate_limit_retry_amended (P : Pricing) (attempts : Nat → ProbeOutcome)
    (task test : String) (h : ∀ i, i < 5 → attempts i = ProbeOutcome.rateLimited) :
    is_gpt4_available attempts = ProbeResult.mk true 5 5
    ∧ session_init P attempts task test "gpt-4"
        = (GPTSession.mk task test "gpt-4" P.gpt4_prompt P.gpt4_generation 0 0,
           InitLog.mk false (some (ProbeResult.mk true 5 5)))
    ∧ (∀ (att2 : Nat → ProbeOutcome) (k : Nat), k < 5 →
        (∀ i, i < k → att2 i = ProbeOutcome.rateLimited) → att2 k = ProbeOutcome.success →
        is_gpt4_available att2 = ProbeResult.mk true (k + 1) k)
    ∧ (∀ (att3 : Nat → ProbeOutcome) (k : Nat), k < 5 →
        (∀ i, i < k → att3 i = ProbeOutcome.rateLimited) →
        att3 k = ProbeOutcome.invalidRequest →
        is_gpt4_available att3 = ProbeResult.mk false (k + 1) k
        ∧ session_init P att3 task test "gpt-4"
            = (GPTSession.mk task test "gpt-3.5-turbo" P.gpt35_prompt P.gpt35_generation 0 0,
               InitLog.mk true (some (ProbeResult.mk false (k + 1) k)))) := by
  have hav : is_gpt4_available attempts = ProbeResult.mk true 5 5 := by
    simp [is_gpt4_available, probe_loop, h 0 (by norm_num), h 1 (by norm_num),
      h 2 (by norm_num), h 3 (by norm_num), h 4 (by norm_num)]
  refine ⟨hav, by simp [session_init, hav], ?_, ?_⟩
  · intro att2 k hk hrl hsucc
    interval_cases k
    · simp [is_gpt4_available, probe_loop, hsucc]
    · simp [is_gpt4_available, probe_loop, hrl 0 (by norm_num), hsucc]
    · simp [is_gpt4_available, probe_loop, hrl 0 (by norm_num), hrl 1 (by norm_num), hsucc]
    · simp [is_gpt4_available, probe_loop, hrl 0 (by norm_num), hrl 1 (by norm_num),
        hrl 2 (by norm_num), hsucc]
    · simp [is_gpt4_available, probe_loop, hrl 0 (by norm_num), hrl 1 (by norm_num),
        hrl 2 (by norm_num), hrl 3 (by norm_num), hsucc]
  · intro att3 k hk hrl hinv
    have hav3 : is_gpt4_available att3 = ProbeResult.mk false (k + 1) k := by
      interval_cases k
      · simp [is_gpt4_available, probe_loop, hinv]
      · simp [is_gpt4_available, probe_loop, hrl 0 (by norm_num), hinv]
      · simp [is_gpt4_available, probe_loop, hrl 0 (by norm_num), hrl 1 (by norm_num), hinv]
      · simp [is_gpt4_available, probe_loop, hrl 0 (by norm_num), hrl 1 (by norm_num),
          hrl 2 (by norm_num), hinv]
      · simp [is_gpt4_available, probe_loop, hrl 0 (by norm_num), hrl 1 (by norm_num),
          hrl 2 (by norm_num), hrl 3 (by norm_num), hinv]
    exact ⟨hav3, by simp [session_init, hav3]⟩

/-- Witness for the amended claim C1 at the all-rate-limited oracle, also
exercising the invalid-request fallback branch at an oracle that is
rate-limited twice and then rejects the request. -/
theorem rate_limit_retry_amended_witness :
    (∀ i, i < 5 → (fun _ => ProbeOutcome.rateLimited) i = ProbeOutcome.rateLimited)
    ∧ is_gpt4_available (fun _ => ProbeOutcome.rateLimited) = ProbeResult.mk true 5 5
    ∧ session_init sample_pricing (fun _ => ProbeOutcome.rateLimited) "T" "D" "gpt-4"
        = (GPTSession.mk "T" "D" "gpt-4" sample_pricing.gpt4_prompt sample_pricing.gpt4_generation 0 0,
           InitLog.mk false (some (ProbeResult.mk true 5 5)))
    ∧ is_gpt4_available (fun i => if i < 2 then ProbeOutcome.rateLimited
          else ProbeOutcome.invalidRequest) = ProbeResult.mk false 3 2
    ∧ session_init sample_pricing (fun i => if i < 2 then ProbeOutcome.rateLimited
          else ProbeOutcome.invalidRequest) "T" "D" "gpt-4"
        = (GPTSession.mk "T" "D" "gpt-3.5-turbo" sample_pricing.gpt35_prompt
             sample_pricing.gpt35_generation 0 0,
           InitLog.mk true (some (ProbeResult.mk false 3 2))) := by
  have h : ∀ i, i < 5 → (fun _ => ProbeOutcome.rateLimited) i = ProbeOutcome.rateLimited :=
    fun _ _ => rfl
  have r := rate_limit_retry_amended sample_pricing (fun _ => ProbeOutcome.rateLimited) "T" "D" h
  have rinv := r.2.2.2 (fun i => if i < 2 then ProbeOutcome.rateLimited
      else ProbeOutcome.invalidRequest) 2 (by norm_num)
    (fun i hi => by interval_cases i <;> rfl) rfl
  exact ⟨h, r.1, r.2.1, rinv.1, rinv.2⟩

/-- Claim C2: for every pair of task and test descriptions and every set of
example names, the system message contains the task and test descriptions
substituted verbatim into the fixed template, and contains exactly the
example fragments whose names are members of the set, concatenated in the
fixed order executor, docarray, client, independent of the order in which the
names are supplied. -/
theorem system_message_spec (T : Templates) (task test : String)
    (l1 l2 : List String) (h : ∀ x, x ∈ l1 ↔ x ∈ l2) :
    (∃ u v, (create_system_message T task test l1).content = u ++ task ++ v)
    ∧ (∃ u v, (create_system_message T task test l1).content = u ++ test ++ v)
    ∧ (create_system_message T task test l1).content
        = render_base T task test ++ rendered_examples T l1
    ∧ create_system_message T task test l1 = create_system_message T task test l2 := by
  refine ⟨?_, ?_, create_system_message_content T task test l1,
    create_system_message_membership T task test l1 l2 (h _) (h _) (h _)⟩
  · refine ⟨T.base_pre, T.base_mid ++ test ++ T.base_post ++ rendered_examples T l1, ?_⟩
    rw [create_system_message_content]
    simp [render_base, String.append_assoc]
  · refine ⟨T.base_pre ++ task ++ T.base_mid, T.base_post ++ rendered_examples T l1, ?_⟩
    rw [create_system_message_content]
    simp [render_base, String.append_assoc]

/-- Witness for claim C2 on concrete descriptions and two orderings of the
same example-name set. -/
theorem system_message_spec_witness :
    (∀ x : String, x ∈ ["client", "executor"] ↔ x ∈ ["executor", "client", "executor"])
    ∧ ((∃ u v, (create_system_message sample_templates "TASK" "TEST" ["client", "executor"]).content
          = u ++ "TASK" ++ v)
      ∧ (∃ u v, (create_system_message sample_templates "TASK" "TEST" ["client", "executor"]).content
          = u ++ "TEST" ++ v)
      ∧ (create_system_message sample_templates "TASK" "TEST" ["client", "executor"]).content
          = render_base sample_templates "TASK" "TEST"
            ++ rendered_examples sample_templates ["client", "executor"]
      ∧ create_system_message sample_templates "TASK" "TEST" ["client", "executor"]
          = create_system_message sample_templates "TASK" "TEST" ["executor", "client", "executor"]) := by
  have h : ∀ x : String, x ∈ ["client", "executor"] ↔ x ∈ ["executor", "client", "executor"] := by
    intro x
    simp only [List.mem_cons, List.not_mem_nil, or_false]
    tauto
  exact ⟨h, system_message_spec sample_templates "TASK" "TEST" _ _ h⟩

/-- Claim C9: when the requested model is not `"gpt-4"`, no probe request is
issued and no warning is printed; the session keeps the requested model name
verbatim but selects the GPT-3.5 pricing constants. -/
theorem non_premium_model_spec (P : Pricing) (attempts : Nat → ProbeOutcome)
    (task test model : String) (h : model ≠ "gpt-4") :
    session_init P attempts task test model
      = (GPTSession.mk task test model P.gpt35_prompt P.gpt35_generation 0 0,
         InitLog.mk false none) := by
  simp [session_init, h]

/-- Witness for claim C9 at the model name `"gpt-3.5-turbo"`. -/
theorem non_premium_model_spec_witness :
    ("gpt-3.5-turbo" ≠ "gpt-4")
    ∧ session_init sample_pricing (fun _ => ProbeOutcome.success) "T" "D" "gpt-3.5-turbo"
        = (GPTSession.mk "T" "D" "gpt-3.5-turbo" sample_pricing.gpt35_prompt
             sample_pricing.gpt35_generation 0 0,
           InitLog.mk false none) :=
  ⟨by decide, non_premium_model_spec sample_pricing (fun _ => ProbeOutcome.success) "T" "D"
    "gpt-3.5-turbo" (by decide)⟩

/-- Claim C10: example-fragment selection depends only on membership of the
three recognized names in the supplied collection — duplicated or
unrecognized names change nothing — and the selected fragments form a
sublist of the three fragments, so each appears at most once. -/
theorem example_selection_membership_only (T : Templates) (task test : String)
    (l1 l2 : List String)
    (he : "executor" ∈ l1 ↔ "executor" ∈ l2) (hd : "docarray" ∈ l1 ↔ "docarray" ∈ l2)
    (hc : "client" ∈ l1 ↔ "client" ∈ l2) :
    create_system_message T task test l1 = create_system_message T task test l2
    ∧ (create_system_message T task test l1).content
        = render_base T task test
          ++ String.join ((selected_examples T l1).map (fun e => "\n" ++ e))
    ∧ List.Sublist (selected_examples T l1)
        [T.executor_example, T.docarray_example, T.client_example] := by
  refine ⟨create_system_message_membership T task test l1 l2 he hd hc, ?_, ?_⟩
  · rw [create_system_message_content]
    simp only [rendered_examples, selected_examples, List.map_map]
    rfl
  · have h := List.Sublist.map Prod.snd
      (List.filter_sublist (l := example_table T) (p := fun p => decide (p.1 ∈ l1)))
    simpa [example_table, selected_examples] using h

/-- Witness for claim C10: a duplicated name and an unrecognized name leave
the system message unchanged. -/
theorem example_selection_membership_only_witness :
    ("executor" ∈ ["executor", "executor", "bogus"] ↔ "executor" ∈ ["executor"])
    ∧ ("docarray" ∈ ["executor", "executor", "bogus"] ↔ "docarray" ∈ ["executor"])
    ∧ ("client" ∈ ["executor", "executor", "bogus"] ↔ "client" ∈ ["executor"])
    ∧ (create_system_message sample_templates "TASK" "TEST" ["executor", "executor", "bogus"]
        = create_system_message sample_templates "TASK" "TEST" ["executor"]
      ∧ (create_system_message sample_templates "TASK" "TEST" ["executor", "executor", "bogus"]).content
          = render_base sample_templates "TASK" "TEST"
            ++ String.join ((selected_examples sample_templates
                ["executor", "executor", "bogus"]).map (fun e => "\n" ++ e))
      ∧ List.Sublist (selected_examples sample_templates ["executor", "executor", "bogus"])
          [sample_templates.executor_example, sample_templates.docarray_example,
           sample_templates.client_example]) := by
  refine ⟨by decide, by decide, by decide, ?_⟩
  exact example_selection_membership_only sample_templates "TASK" "TEST"
    ["executor", "executor", "bogus"] ["executor"] (by decide) (by decide) (by decide)

/-- Claim C7: with the credential variable absent, session construction fails
with the instructional error message, independently of the probe oracle (so
before any probe request could matter); with the credential present,
construction proceeds to tier selection. -/
theorem missing_api_key_spec (env : String → Option String) (P : Pricing)
    (attempts : Nat → ProbeOutcome) (task test model : String)
    (h : env "OPENAI_API_KEY" = none) :
    gpt_session_construct env P attempts task test model
      = Except.error openai_key_error_message
    ∧ (∀ attempts2, gpt_session_construct env P attempts2 task test model
        = gpt_session_construct env P attempts task test model)
    ∧ (∃ u v, openai_key_error_message = u ++ "set OPENAI_API_KEY" ++ v)
    ∧ (∃ u v, openai_key_error_message = u ++ "restart" ++ v)
    ∧ (∀ env2 : String → Option String, (env2 "OPENAI_API_KEY").isSome →
        gpt_session_construct env2 P attempts task test model
          = Except.ok (session_init P attempts task test model)) := by
  refine ⟨?_, ?_, ?_, ?_, ?_⟩
  · simp [gpt_session_construct, configure_openai_api_key, h]
  · intro attempts2
    simp [gpt_session_construct, configure_openai_api_key, h]
  · exact ⟨"\nYou need to ",
      " in your environment.\nIf you have updated it already, please restart your terminal.\n", rfl⟩
  · exact ⟨"\nYou need to set OPENAI_API_KEY in your environment.\nIf you have updated it already, please ",
      " your terminal.\n", rfl⟩
  · intro env2 h2
    simp [gpt_session_construct, configure_openai_api_key, h2]

/-- Witness for claim C7 at the empty environment. -/
theorem missing_api_key_spec_witness :
    ((fun _ : String => (none : Option String)) "OPENAI_API_KEY" = none)
    ∧ gpt_session_construct (fun _ => none) sample_pricing (fun _ => ProbeOutcome.success)
        "T" "D" "gpt-4" = Except.error openai_key_error_message := by
  have r := missing_api_key_spec (fun _ => none) sample_pricing (fun _ => ProbeOutcome.success)
    "T" "D" "gpt-4" rfl
  exact ⟨rfl, r.1⟩

/-- Claim C3: a successful `chat` call appends exactly one user message with
the prompt and then exactly one assistant message with the reply, growing the
transcript by exactly 2, and the returned value is the content of the
appended assistant message. -/
theorem chat_turn_spec (oracle : List Message → Except String String) (CPT : ℚ)
    (s : GPTSession) (c : Conversation) (p r : String)
    (h : oracle (chat_request c p) = Except.ok r) :
    (chat oracle CPT s c p).2.1.messages
      = c.messages ++ [Message.mk Role.user p, Message.mk Role.assistant r]
    ∧ (chat oracle CPT s c p).2.1.messages.length = c.messages.length + 2
    ∧ (chat oracle CPT s c p).2.2 = Except.ok r
    ∧ (chat oracle CPT s c p).2.1.messages.getLast? = some (Message.mk Role.assistant r) := by
  rw [chat_ok_eq oracle CPT s c p r h]
  refine ⟨rfl, by simp, rfl, by simp⟩

/-- Witness for claim C3 on a concrete conversation and backend. -/
theorem chat_turn_spec_witness :
    ((fun _ : List Message => (Except.ok "REPLY" : Except String String))
        (chat_request sample_conversation "hello") = Except.ok "REPLY")
    ∧ ((chat (fun _ => Except.ok "REPLY") 4 sample_session sample_conversation "hello").2.1.messages
        = sample_conversation.messages
          ++ [Message.mk Role.user "hello", Message.mk Role.assistant "REPLY"]
      ∧ (chat (fun _ => Except.ok "REPLY") 4 sample_session sample_conversation "hello").2.1.messages.length
          = sample_conversation.messages.length + 2
      ∧ (chat (fun _ => Except.ok "REPLY") 4 sample_session sample_conversation "hello").2.2
          = Except.ok "REPLY"
      ∧ (chat (fun _ => Except.ok "REPLY") 4 sample_session sample_conversation "hello").2.1.messages.getLast?
          = some (Message.mk Role.assistant "REPLY")) :=
  ⟨rfl, chat_turn_spec (fun _ => Except.ok "REPLY") 4 sample_session sample_conversation
    "hello" "REPLY" rfl⟩

/-- Claim C4: `chat` consults the backend at exactly the request
`system message :: transcript ++ [user prompt]` (so changing the oracle
anywhere else changes nothing), the system message is never stored in the
transcript, and after a successful `chat p1` on a fresh conversation the
request formed by `chat p2` is
`[system, user p1, assistant reply1, user p2]`. -/
theorem chat_request_payload_spec (oracle : List Message → Except String String) (CPT : ℚ)
    (s : GPTSession) (c : Conversation) (p1 p2 r1 : String)
    (hfresh : c.messages = []) (h1 : oracle (chat_request c p1) = Except.ok r1) :
    chat_request ((chat oracle CPT s c p1).2.1) p2
      = [c.system_message, Message.mk Role.user p1, Message.mk Role.assistant r1,
         Message.mk Role.user p2]
    ∧ (∀ o2 : List Message → Except String String,
        o2 (chat_request c p1) = oracle (chat_request c p1) →
        chat o2 CPT s c p1 = chat oracle CPT s c p1)
    ∧ ((∀ m ∈ c.messages, m.role ≠ Role.system) →
        ∀ m ∈ (chat oracle CPT s c p1).2.1.messages, m.role ≠ Role.system)
    ∧ (chat oracle CPT s c p1).2.1.system_message = c.system_message := by
  refine ⟨?_, ?_, ?_, ?_⟩
  · rw [chat_ok_eq oracle CPT s c p1 r1 h1]
    simp [chat_request, hfresh]
  · intro o2 ho2
    simp only [chat, ho2]
  · intro hm m hmem
    rw [chat_ok_eq oracle CPT s c p1 r1 h1] at hmem
    simp only [List.mem_append, List.mem_cons, List.not_mem_nil, or_false] at hmem
    rcases hmem with hm1 | rfl | rfl
    · exact hm m hm1
    · simp
    · simp
  · rw [chat_ok_eq oracle CPT s c p1 r1 h1]

/-- Witness for claim C4: the two-call scenario on a fresh conversation. -/
theorem chat_request_payload_spec_witness :
    (sample_conversation.messages = [])
    ∧ ((fun _ : List Message => (Except.ok "reply1" : Except String String))
        (chat_request sample_conversation "hello") = Except.ok "reply1")
    ∧ chat_request ((chat (fun _ => Except.ok "reply1") 4 sample_session sample_conversation
          "hello").2.1) "world"
      = [sample_conversation.system_message, Message.mk Role.user "hello",
         Message.mk Role.assistant "reply1", Message.mk Role.user "world"] := by
  have r := chat_request_payload_spec (fun _ => Except.ok "reply1") 4 sample_session
    sample_conversation "hello" "world" "reply1" rfl rfl
  exact ⟨rfl, rfl, r.1⟩

/-- Claim C5, counterexample: the code rounds each pool's spend to 3 decimal
places separately and sums (`calculate_money_spent` per pool), which is not
the claim's formula of rounding the summed total.  With `CHARS_PER_TOKEN = 1`,
both prices `1/10` and 6 prompt plus 6 generation characters, each pool's raw
spend is `6/10000 = 0.0006`: the code prints
`round3 0.0006 + round3 0.0006 = 0.001 + 0.001 = 0.002`, while the claim's
formula gives `round3 (0.0012) = 0.001`. -/
theorem cost_rounding_counterexample :
    (cost_callback 1 (GPTSession.mk "T" "D" "gpt-4" (1 / 10) (1 / 10) 0 0) 6 6).2 = 2 / 1000
    ∧ spec_running_cost 1 (1 / 10) (1 / 10) 6 6 = 1 / 1000
    ∧ (cost_callback 1 (GPTSession.mk "T" "D" "gpt-4" (1 / 10) (1 / 10) 0 0) 6 6).2
        ≠ spec_running_cost 1 (1 / 10) (1 / 10) 6 6 := by
  have h1 : (cost_callback 1 (GPTSession.mk "T" "D" "gpt-4" (1 / 10) (1 / 10) 0 0) 6 6).2
      = 2 / 1000 := by
    norm_num [cost_callback, calculate_money_spent, round3, round_half_even]
  have h2 : spec_running_cost 1 (1 / 10) (1 / 10) 6 6 = 1 / 1000 := by
    norm_num [spec_running_cost, round3, round_half_even]
  refine ⟨h1, h2, by rw [h1, h2]; norm_num⟩

/-- Claim C5, amended: after each completed turn the printed running cost
equals `(promptCharsSoFar / CHARS_PER_TOKEN) * pricePerKCharsPrompt / 1000`
rounded to 3 decimal places PLUS
`(genCharsSoFar / CHARS_PER_TOKEN) * pricePerKCharsGeneration / 1000` rounded
to 3 decimal places — the rounding is applied to each pool separately before
summing, not to the summed total — for any pricing constants (premium or
standard), and the printed total is exactly representable with 3 decimal
places, so the `.3f` formatting of the sum is exact. -/
theorem cost_printed_amended (CPT : ℚ) (s : GPTSession) (cp cg : Nat) :
    (cost_callback CPT s cp cg).2
      = round3 (((s.chars_prompt_so_far + cp : Nat) : ℚ) / CPT * s.pricing_prompt / 1000)
        + round3 (((s.chars_generation_so_far + cg : Nat) : ℚ) / CPT
            * s.pricing_generation / 1000)
    ∧ (∃ n : ℤ, (cost_callback CPT s cp cg).2 * 1000 = (n : ℚ))
    ∧ (cost_callback CPT s cp cg).1.chars_prompt_so_far = s.chars_prompt_so_far + cp
    ∧ (cost_callback CPT s cp cg).1.chars_generation_so_far
        = s.chars_generation_so_far + cg := by
  refine ⟨rfl, ?_, rfl, rfl⟩
  refine ⟨round_half_even ((s.chars_prompt_so_far + cp : ℚ) / CPT * s.pricing_prompt / 1000 * 1000)
    + round_half_even ((s.chars_generation_so_far + cg : ℚ) / CPT * s.pricing_generation / 1000
      * 1000), ?_⟩
  simp [cost_callback, calculate_money_spent, round3]
  ring

/-- Claim C6: the cumulative character counters never decrease across `chat`
calls, and after any all-successful run they equal the initial values plus
the exact sums of the per-turn request character counts (system message plus
full transcript including the new user message) and reply lengths. -/
theorem session_counters_spec (oracle : List Message → Except String String) (CPT : ℚ)
    (s : GPTSession) (c : Conversation) (ps : List String)
    (hok : ∀ e ∈ runLog oracle CPT s c ps, (e.2).isOk = true) :
    (∀ (p : String) (s2 : GPTSession) (c2 : Conversation),
      s2.chars_prompt_so_far ≤ (chat oracle CPT s2 c2 p).1.chars_prompt_so_far
      ∧ s2.chars_generation_so_far ≤ (chat oracle CPT s2 c2 p).1.chars_generation_so_far)
    ∧ (runChats oracle CPT s c ps).1.chars_prompt_so_far
      = s.chars_prompt_so_far + ((runLog oracle CPT s c ps).map (fun e => msgs_chars e.1)).sum
    ∧ (runChats oracle CPT s c ps).1.chars_generation_so_far
      = s.chars_generation_so_far
        + ((runLog oracle CPT s c ps).map (fun e => reply_chars e.2)).sum := by
  have h := runChats_counters oracle CPT ps s c hok
  exact ⟨fun p s2 c2 => chat_counters_mono oracle CPT s2 c2 p, h.1, h.2⟩

/-- Witness for claim C6: a two-turn all-successful run on a concrete
session, conversation and backend. -/
theorem session_counters_spec_witness :
    (∀ e ∈ runLog (fun _ => Except.ok "OK") 4 sample_session sample_conversation ["a", "b"],
      (e.2).isOk = true)
    ∧ (runChats (fun _ => Except.ok "OK") 4 sample_session sample_conversation ["a", "b"]).1.chars_prompt_so_far
      = sample_session.chars_prompt_so_far
        + ((runLog (fun _ => Except.ok "OK") 4 sample_session sample_conversation
            ["a", "b"]).map (fun e => msgs_chars e.1)).sum
    ∧ (runChats (fun _ => Except.ok "OK") 4 sample_session sample_conversation ["a", "b"]).1.chars_generation_so_far
      = sample_session.chars_generation_so_far
        + ((runLog (fun _ => Except.ok "OK") 4 sample_session sample_conversation
            ["a", "b"]).map (fun e => reply_chars e.2)).sum := by
  have hok : ∀ e ∈ runLog (fun _ => Except.ok "OK") 4 sample_session sample_conversation
      ["a", "b"], (e.2).isOk = true := by decide
  have r := session_counters_spec (fun _ => Except.ok "OK") 4 sample_session
    sample_conversation ["a", "b"] hok
  exact ⟨hok, r.2.1, r.2.2⟩

/-- Claim C8: a transport error inside `chat` propagates to the caller, the
session is untouched (no cost callback), the dangling user message stays in
the transcript with no assistant message appended, and the next call's
request includes it. -/
theorem transport_failure_spec (oracle : List Message → Except String String) (CPT : ℚ)
    (s : GPTSession) (c : Conversation) (p e : String)
    (h : oracle (chat_request c p) = Except.error e) :
    chat oracle CPT s c p
      = (s, Conversation.mk c.system_message (c.messages ++ [Message.mk Role.user p]),
         Except.error e)
    ∧ (∀ p2, chat_request ((chat oracle CPT s c p).2.1) p2
        = c.system_message
          :: (c.messages ++ [Message.mk Role.user p, Message.mk Role.user p2])) := by
  refine ⟨chat_err_eq oracle CPT s c p e h, ?_⟩
  intro p2
  rw [chat_err_eq oracle CPT s c p e h]
  simp [chat_request]

/-- Witness for claim C8 on a concrete always-failing backend. -/
theorem transport_failure_spec_witness :
    ((fun _ : List Message => (Except.error "boom" : Except String String))
        (chat_request sample_conversation "hello") = Except.error "boom")
    ∧ chat (fun _ => Except.error "boom") 4 sample_session sample_conversation "hello"
      = (sample_session,
         Conversation.mk sample_conversation.system_message
           (sample_conversation.messages ++ [Message.mk Role.user "hello"]),
         Except.error "boom")
    ∧ chat_request ((chat (fun _ => Except.error "boom") 4 sample_session sample_conversation
          "hello").2.1) "world"
      = sample_conversation.system_message
          :: (sample_conversation.messages
            ++ [Message.mk Role.user "hello", Message.mk Role.user "world"]) := by
  have r := transport_failure_spec (fun _ => Except.error "boom") 4 sample_session
    sample_conversation "hello" "boom" rfl
  exact ⟨rfl, r.1, r.2 "world"⟩

end GPTDeploy
